import Mathlib

/-!
Shallow embedding of the Community Microhelp backend
(`src/backend/server.js` — called variant A below — and the second backend
variant `src/unnamed/part_000` — called variant B below), together with
theorems settling the specification claims about it.

The document store (MongoDB) is modelled as Lean lists of records, one list
per collection, in insertion order; `findOne` is `List.find?`, `updateOne`
updates the first matching document, `deleteOne` removes the first matching
document, and a unique index makes `insertOne` fail exactly when a document
with the same key already exists.  External library behaviour that the
handlers rely on (bcrypt, jsonwebtoken, the zod validators) is modelled by
its documented contract, as noted on each definition.
-/

namespace CommunityApp

/-- Update the first element of a list satisfying `p` (MongoDB `updateOne`:
at most one document is modified). -/
def updateFirst (p : α → Bool) (f : α → α) : List α → List α
  | [] => []
  | x :: xs => if p x then f x :: xs else x :: updateFirst p f xs

/-- Remove the first element of a list satisfying `p` (MongoDB `deleteOne`). -/
def deleteFirst (p : α → Bool) : List α → List α
  | [] => []
  | x :: xs => if p x then xs else x :: deleteFirst p xs

theorem find?_updateFirst (p : α → Bool) (f : α → α) (l : List α)
    (hf : ∀ a, p (f a) = p a) :
    (updateFirst p f l).find? p = (l.find? p).map f := by
  induction l with
  | nil => rfl
  | cons x xs ih =>
    by_cases hx : p x = true
    · simp [updateFirst, hx, List.find?_cons, hf x]
    · have hx' : p x = false := by simpa using hx
      simp [updateFirst, hx', List.find?_cons, ih]

/-- Lowercasing, modelling JavaScript `String.prototype.toLowerCase()` on the
ASCII strings this backend manipulates (`Char.toLower` lowercases exactly the
ASCII capital letters). -/
def lowerString (s : String) : String := String.mk (s.toList.map Char.toLower)

def trimChars (cs : List Char) : List Char :=
  ((cs.dropWhile Char.isWhitespace).reverse.dropWhile Char.isWhitespace).reverse

/-- Whitespace trimming, modelling JavaScript `String.prototype.trim()`. -/
def trimString (s : String) : String := String.mk (trimChars s.toList)

/-- Payload of a signed JWT as produced by `signToken` in both backend
variants: `jwt.sign({ userId, tenantId, role, email, name }, JWT_SECRET)`. -/
structure TokenClaims where
  userId : String
  tenantId : String
  role : String
  email : String
  name : String
deriving DecidableEq

/-- Bearer tokens, modelling the jsonwebtoken library contract: a token is
either a signature under some secret of a claims payload, or a malformed
string; `jwt.verify` with the server secret succeeds exactly on tokens signed
with that same secret and returns the signed claims. -/
inductive Token where
  | signed (secret : String) (claims : TokenClaims)
  | malformed (raw : String)
deriving DecidableEq

/-- Embeds `signToken` (server.js line 75, part_000 line 123):
`jwt.sign(payload, JWT_SECRET, ...)`. -/
def signToken (secret : String) (claims : TokenClaims) : Token :=
  Token.signed secret claims

/-- Embeds `jwt.verify(token, JWT_SECRET)`: returns the claims when the token
was signed with the verifying secret, and fails otherwise. -/
def verifyToken (secret : String) : Token → Option TokenClaims
  | Token.signed s c => if s = secret then some c else none
  | Token.malformed _ => none

/-- Embeds `hashPassword` (server.js lines 67-70): a salted bcrypt hash of
`plain + PASSWORD_PEPPER`.  Modelled by the bcrypt contract — deterministic
here, with `verifyPassword` succeeding exactly on the hash of the same
peppered input; the marker prefix keeps hashes distinct from raw strings. -/
def hashPassword (pepper plain : String) : String :=
  "bcrypt$" ++ (plain ++ pepper)

/-- Embeds `verifyPassword` (server.js lines 71-73):
`bcrypt.compare(plain + PASSWORD_PEPPER, hash)`. -/
def verifyPassword (pepper plain hash : String) : Bool :=
  hash == hashPassword pepper plain

/-- A document of the `users` collection.  `passwordHash = none` models a
missing field (OAuth accounts); `emailVerified = none` models the field being
absent, as in documents created by the server.js variant, while the part_000
variant stores `some false` at signup and `some true` after verification. -/
structure User where
  userId : String
  tenantId : String
  email : String
  username : String
  name : String
  role : String
  providers : List String
  passwordHash : Option String
  emailVerified : Option Bool
  createdAt : Nat
  updatedAt : Nat
deriving DecidableEq

/-- Domain tail of `emailFormatOk`: inside a domain label, scanning for a dot
followed by at least two further characters. -/
def domainTail : List Char → Bool
  | [] => false
  | c :: rest =>
    if c = '@' then false
    else if c = '.' then
      match rest with
      | _ :: _ :: _ => true
      | _ => false
    else domainTail rest

/-- Domain part of `emailFormatOk`: a nonempty first label followed by a dot
and at least two further characters. -/
def domainChars : List Char → Bool
  | [] => false
  | c :: rest => if c = '@' || c = '.' then false else domainTail rest

/-- Scanner of `emailFormatOk` after the first local character: find the `@`
and check the domain behind it. -/
def emailRest : List Char → Bool
  | [] => false
  | c :: rest => if c = '@' then domainChars rest else emailRest rest

/-- Modelled from the library contract of `z.string().email()` (the zod
validator used by `signupSchema`; zod is an external dependency, not part of
the repository): a nonempty local part, an `@`, and a domain consisting of a
nonempty label, a dot and a top-level domain of at least two characters.
This is an approximation of zod's email regular expression sufficient for the
claims, and every string it accepts has at least three characters. -/
def emailFormatOk (s : String) : Bool :=
  match s.toList with
  | [] => false
  | c :: rest => if c = '@' then false else emailRest rest

/-- A `POST /auth/signup` request body. -/
structure SignupPayload where
  tenantId : String
  email : String
  username : String
  password : String
  name : String
deriving DecidableEq

/-- Embeds `signupSchema` (server.js lines 98-104): tenantId nonempty, email
well-formed, username of 3-40 characters, password of at least 8 characters,
name of 1-100 characters. -/
def signupSchemaCheck (p : SignupPayload) : Bool :=
  decide (1 ≤ p.tenantId.length) && emailFormatOk p.email &&
  decide (3 ≤ p.username.length) && decide (p.username.length ≤ 40) &&
  decide (8 ≤ p.password.length) &&
  decide (1 ≤ p.name.length) && decide (p.name.length ≤ 100)

/-- A `POST /auth/login` request body. -/
structure LoginPayload where
  tenantId : String
  emailOrUsername : String
  password : String
deriving DecidableEq

/-- Embeds `loginSchema` (server.js lines 106-110). -/
def loginSchemaCheck (p : LoginPayload) : Bool :=
  decide (1 ≤ p.tenantId.length) && decide (3 ≤ p.emailOrUsername.length) &&
  decide (8 ≤ p.password.length)

/-- The `users.findOne` filter shared by the signup duplicate check and the
login lookup: same tenant and matching email or username. -/
def emailOrUsernameQuery (tenantId e un : String) (u : User) : Bool :=
  u.tenantId == tenantId && (u.email == e || u.username == un)

/-- The `users.findOne({ userId, tenantId })` lookup used by `requireAuth`. -/
def findUserById (users : List User) (userId tenantId : String) : Option User :=
  users.find? (fun u => u.userId == userId && u.tenantId == tenantId)

/-- The user document inserted by the signup handlers: lowercased email and
username, deterministic `userId`, peppered password hash; the server.js
variant stores no `emailVerified` field (`none`), the part_000 variant
stores `some false`. -/
def signupDoc (pepper : String) (now : Nat) (p : SignupPayload)
    (verified : Option Bool) : User :=
  { userId := "local:" ++ p.tenantId ++ ":" ++ lowerString p.email
    tenantId := p.tenantId
    email := lowerString p.email
    username := lowerString p.username
    name := p.name
    role := "member"
    providers := ["local"]
    passwordHash := some (hashPassword pepper p.password)
    emailVerified := verified
    createdAt := now
    updatedAt := now }

/-- The token payload signed at signup and at login for the signed-up user:
its `userId` is the `userId` stored on the user document. -/
def signupClaims (p : SignupPayload) : TokenClaims :=
  ⟨"local:" ++ p.tenantId ++ ":" ++ lowerString p.email, p.tenantId,
    "member", lowerString p.email, p.name⟩

/-- Outcome of a signup request in the server.js variant: HTTP status, the
token and user of the 201 response body, and the users collection after the
request. -/
structure SignupResult where
  status : Nat
  token : Option Token
  user : Option User
  users : List User
deriving DecidableEq

/-- Embeds the `POST /auth/signup` handler of server.js (lines 202-235,
variant A): validate, reject duplicates with 409, store the user with a
hashed password and `userId = "local:" ++ tenantId ++ ":" ++ email` (email
and username lowercased), and answer 201 with a signed token.  `now` stands
for `new Date()`. -/
def signupA (pepper secret : String) (now : Nat) (users : List User)
    (p : SignupPayload) : SignupResult :=
  if signupSchemaCheck p = false then ⟨400, none, none, users⟩ else
  match users.find? (emailOrUsernameQuery p.tenantId (lowerString p.email)
      (lowerString p.username)) with
  | some _ => ⟨409, none, none, users⟩
  | none =>
    let doc : User := signupDoc pepper now p none
    ⟨201, some (signToken secret
        ⟨doc.userId, doc.tenantId, doc.role, doc.email, doc.name⟩),
      some doc, users ++ [doc]⟩

/-- A document of the `emailVerifications` collection (part_000). -/
structure VerificationToken where
  tenantId : String
  userId : String
  email : String
  token : String
  createdAt : Nat
  expiresAt : Nat
  usedAt : Option Nat
deriving DecidableEq

/-- Outcome of a signup request in the part_000 variant: HTTP status and the
users and emailVerifications collections after the request (the 201 body
carries no token and no user object, only a message). -/
structure SignupResultB where
  status : Nat
  users : List User
  everifs : List VerificationToken
deriving DecidableEq

/-- Embeds the `POST /auth/signup` handler of part_000 (lines 483-546,
variant B): same validation and duplicate check as variant A, but the stored
user carries `emailVerified: false`, pending verification tokens are replaced
by a fresh one (`vtok` stands for the random token, `now` for `new Date()`),
and the 201 response tells the client to verify the email first. -/
def signupB (pepper : String) (now ttl : Nat) (vtok : String)
    (users : List User) (everifs : List VerificationToken)
    (p : SignupPayload) : SignupResultB :=
  if signupSchemaCheck p = false then ⟨400, users, everifs⟩ else
  match users.find? (emailOrUsernameQuery p.tenantId (lowerString p.email)
      (lowerString p.username)) with
  | some _ => ⟨409, users, everifs⟩
  | none =>
    let doc : User := signupDoc pepper now p (some false)
    let kept := everifs.filter (fun v =>
      !(v.tenantId == p.tenantId && v.userId == doc.userId && v.usedAt == none))
    ⟨201, users ++ [doc],
      kept ++ [⟨p.tenantId, doc.userId, lowerString p.email, vtok, now,
        now + ttl, none⟩]⟩

/-- Outcome of a login request: HTTP status, the token of a 200 response, and
the error `code` field (part_000 sends `EMAIL_NOT_VERIFIED` with 403). -/
structure LoginResult where
  status : Nat
  token : Option Token
  code : Option String
deriving DecidableEq

/-- Embeds the `POST /auth/login` handler of server.js (lines 237-262,
variant A): look the user up by tenant and lowercased email-or-username,
answer 401 on a missing user, missing password hash or failed bcrypt compare,
otherwise 200 with a freshly signed token. -/
def loginA (pepper secret : String) (users : List User)
    (p : LoginPayload) : LoginResult :=
  if loginSchemaCheck p = false then ⟨400, none, none⟩ else
  match users.find? (emailOrUsernameQuery p.tenantId
      (lowerString p.emailOrUsername) (lowerString p.emailOrUsername)) with
  | none => ⟨401, none, none⟩
  | some user =>
    match user.passwordHash with
    | none => ⟨401, none, none⟩
    | some h =>
      if verifyPassword pepper p.password h = false then ⟨401, none, none⟩
      else ⟨200, some (signToken secret
          ⟨user.userId, user.tenantId, user.role, user.email, user.name⟩), none⟩

/-- Embeds the `POST /auth/login` handler of part_000 (lines 548-580,
variant B): as variant A, but a user whose document carries
`emailVerified === false` is rejected with 403 and code `EMAIL_NOT_VERIFIED`
after the password check. -/
def loginB (pepper secret : String) (users : List User)
    (p : LoginPayload) : LoginResult :=
  if loginSchemaCheck p = false then ⟨400, none, none⟩ else
  match users.find? (emailOrUsernameQuery p.tenantId
      (lowerString p.emailOrUsername) (lowerString p.emailOrUsername)) with
  | none => ⟨401, none, none⟩
  | some user =>
    match user.passwordHash with
    | none => ⟨401, none, none⟩
    | some h =>
      if verifyPassword pepper p.password h = false then ⟨401, none, none⟩
      else if user.emailVerified == some false then
        ⟨403, none, some "EMAIL_NOT_VERIFIED"⟩
      else ⟨200, some (signToken secret
          ⟨user.userId, user.tenantId, user.role, user.email, user.name⟩), none⟩

/-- An `Authorization` header value, modelled after its single use in
`requireAuth`: `header.split(" ")` destructured as `[type, token]`, so the
value is a scheme word plus optional credentials. -/
structure AuthHeader where
  scheme : String
  credentials : Option Token
deriving DecidableEq

/-- Result of the `requireAuth` middleware: a 401 rejection with its error
message, or the decoded token claims (`req.user`) together with the user
document looked up in the store (`req.appUser`). -/
inductive AuthOutcome where
  | denied (status : Nat) (msg : String)
  | granted (claims : TokenClaims) (appUser : User)
deriving DecidableEq

/-- Embeds `requireAuth` of server.js (lines 79-96, variant A): missing
header → 401; non-Bearer scheme or missing credentials → 401; failed
`jwt.verify` → 401; token valid but no user document for the decoded
userId/tenantId → 401; otherwise the request is authenticated. -/
def requireAuthA (secret : String) (users : List User)
    (header : Option AuthHeader) : AuthOutcome :=
  match header with
  | none => AuthOutcome.denied 401 "Missing Authorization header"
  | some h =>
    if h.scheme != "Bearer" then
      AuthOutcome.denied 401 "Invalid Authorization header"
    else
      match h.credentials with
      | none => AuthOutcome.denied 401 "Invalid Authorization header"
      | some tok =>
        match verifyToken secret tok with
        | none => AuthOutcome.denied 401 "Invalid or expired token"
        | some claims =>
          match findUserById users claims.userId claims.tenantId with
          | none => AuthOutcome.denied 401 "user not found"
          | some u => AuthOutcome.granted claims u

/-- Embeds `requireAuth` of part_000 (lines 127-147, variant B): identical to
variant A except that, when the `Authorization` header is absent, a `token`
query-string parameter is accepted in its place as `Bearer <token>`. -/
def requireAuthB (secret : String) (users : List User)
    (header : Option AuthHeader) (queryToken : Option Token) : AuthOutcome :=
  let raw : Option AuthHeader :=
    match header with
    | some h => some h
    | none => queryToken.map (fun t => ⟨"Bearer", some t⟩)
  requireAuthA secret users raw

/-- A geographic point as stored in a post's `location` field
(GeoJSON `coordinates: [lng, lat]`); coordinates are modelled as integers
(exactly scaled fixed-point values), which keeps the model executable — the
distance function itself stays a parameter of the pipeline. -/
structure GeoPoint where
  lng : ℤ
  lat : ℤ
deriving DecidableEq

/-- A document of the `posts` collection (ids model Mongo `_id`). -/
structure Post where
  id : Nat
  tenantId : String
  userId : String
  title : String
  content : String
  category : Option String
  location : Option GeoPoint
  commentsCount : Int
  likesCount : Int
  sharesCount : Int
  createdAt : Nat
deriving DecidableEq

/-- A document of the `likes` collection; the store enforces a unique index
on (tenantId, postId, userId). -/
structure Like where
  tenantId : String
  postId : Nat
  userId : String
deriving DecidableEq

/-- A document of the `comments` collection. -/
structure Comment where
  id : Nat
  tenantId : String
  postId : Nat
  userId : String
  text : String
deriving DecidableEq

/-- The unique-key predicate of the `likes` collection. -/
def likeKey (t : String) (pid : Nat) (u : String) (l : Like) : Bool :=
  l.tenantId == t && l.postId == pid && l.userId == u

/-- The `posts.updateOne({ _id, tenantId }, ...)` filter. -/
def postKey (pid : Nat) (t : String) (p : Post) : Bool :=
  p.id == pid && p.tenantId == t

/-- Outcome of `POST /posts/:id/like`: HTTP status, the `liked` flag of the
response body, and both collections after the request. -/
structure LikeOutcome where
  status : Nat
  liked : Bool
  likes : List Like
  posts : List Post
deriving DecidableEq

/-- Embeds the `POST /posts/:id/like` handler (server.js lines 520-535,
part_000 lines 1021-1037): insert a like; on success increment the post's
`likesCount` and answer 201 `liked: true`; when the unique index rejects the
insert as a duplicate (Mongo error 11000) answer 200 `liked: true` and leave
the store untouched.  The `:id` parameter is modelled as an already parsed
ObjectId. -/
def postLike (t u : String) (pid : Nat) (likes : List Like)
    (posts : List Post) : LikeOutcome :=
  if likes.any (likeKey t pid u) then
    ⟨200, true, likes, posts⟩
  else
    ⟨201, true, likes ++ [⟨t, pid, u⟩],
      updateFirst (postKey pid t)
        (fun p => { p with likesCount := p.likesCount + 1 }) posts⟩

/-- The `comments.findOne({ _id, postId, tenantId })` filter of the comment
delete handler. -/
def commentKey (cid pid : Nat) (t : String) (c : Comment) : Bool :=
  c.id == cid && c.postId == pid && c.tenantId == t

/-- Outcome of `DELETE /posts/:id/comments/:commentId`: HTTP status and both
collections after the request. -/
structure DeleteCommentOutcome where
  status : Nat
  comments : List Comment
  posts : List Post
deriving DecidableEq

/-- Embeds the `DELETE /posts/:id/comments/:commentId` handler (server.js
lines 500-517, part_000 lines 1001-1018): 404 when the comment is not found;
403 when the requester (token userId `reqUserId`, store role `reqRole`) is
neither the comment's author nor an admin; otherwise delete the comment and
decrement the parent post's `commentsCount`. -/
def deleteComment (t reqUserId reqRole : String) (pid cid : Nat)
    (comments : List Comment) (posts : List Post) : DeleteCommentOutcome :=
  match comments.find? (commentKey cid pid t) with
  | none => ⟨404, comments, posts⟩
  | some c =>
    if c.userId == reqUserId || reqRole == "admin" then
      ⟨200, deleteFirst (fun x => x.id == cid && x.tenantId == t) comments,
        updateFirst (postKey pid t)
          (fun p => { p with commentsCount := p.commentsCount - 1 }) posts⟩
    else ⟨403, comments, posts⟩

/-- Embeds JavaScript `Math.max` on two numbers, as used for
`Math.max(0, radiusKm)`. -/
def mathMax (a b : ℤ) : ℤ := if a ≤ b then b else a

/-- The document filter of the `$geoNear` stage of `GET /posts` (server.js
lines 390-400): tenant match, a `location` field present, and spherical
distance from the query point at most `maxDistanceMeters`.  The distance
function `d` is a parameter standing for MongoDB's spherical distance in
meters. -/
def geoNearFilter (d : GeoPoint → GeoPoint → ℤ) (near : GeoPoint)
    (maxDistanceMeters : ℤ) (tenantId : String) (posts : List Post) :
    List Post :=
  posts.filter (fun p => p.tenantId == tenantId &&
    (match p.location with
     | some loc => decide (d loc near ≤ maxDistanceMeters)
     | none => false))

/-- Sort order of the geo pipeline's `$sort` stage: ascending distance, then
descending creation time. -/
def geoLe (d : GeoPoint → GeoPoint → ℤ) (near : GeoPoint) (p q : Post) :
    Bool :=
  decide (d (p.location.getD near) near < d (q.location.getD near) near) ||
    (decide (d (p.location.getD near) near = d (q.location.getD near) near) &&
      decide (q.createdAt ≤ p.createdAt))

/-- Insertion into a list sorted by `le`, modelling the `$sort` stage. -/
def insertByLe (le : Post → Post → Bool) (x : Post) : List Post → List Post
  | [] => [x]
  | y :: ys => if le x y then x :: y :: ys else y :: insertByLe le x ys

/-- Sorting by `le`, modelling the `$sort` stage. -/
def sortByLe (le : Post → Post → Bool) : List Post → List Post
  | [] => []
  | x :: xs => insertByLe le x (sortByLe le xs)

/-- Embeds the geo branch of `GET /posts` (server.js lines 390-423, part_000
lines 887-920 with no `q`/`category` filters supplied): `$geoNear` with
`maxDistance = Math.max(0, radiusKm) * 1000`, `$sort` by distance then
recency, `$limit`, and the `$lookup`/`$addFields` stages that annotate each
post with whether `me` has liked it. -/
def geoPosts (d : GeoPoint → GeoPoint → ℤ) (near : GeoPoint) (radiusKm : ℤ)
    (lim : Nat) (tenantId me : String) (posts : List Post)
    (likes : List Like) : List (Post × Bool) :=
  (((sortByLe (geoLe d near)
      (geoNearFilter d near (mathMax 0 radiusKm * 1000) tenantId posts)).take
    lim).map
    (fun p => (p, likes.any (fun l =>
      l.tenantId == p.tenantId && l.postId == p.id && l.userId == me))))

/-- A document of the `chats` collection. -/
structure Chat where
  id : Nat
  tenantId : String
  isGroup : Bool
  participantIds : List String
  title : Option String
deriving DecidableEq

/-- Deduplication with first occurrence kept, modelling
`Array.from(new Set(...))`; `seen` accumulates the elements already
emitted. -/
def dedupGo (seen : List String) : List String → List String
  | [] => []
  | x :: xs => if x ∈ seen then dedupGo seen xs else x :: dedupGo (x :: seen) xs

/-- Embeds `Array.from(new Set([req.user.userId, ...ids]))` of the chat
handler: duplicates removed, first occurrence order kept. -/
def uniqueKeepFirst (l : List String) : List String := dedupGo [] l

/-- The 1:1 dedup lookup of `POST /chats`:
`chats.findOne({ tenantId, isGroup: false, participantIds: { $all: ids, $size: 2 } })`. -/
def oneToOneQuery (t : String) (ids : List String) (c : Chat) : Bool :=
  c.tenantId == t && c.isGroup == false &&
    ids.all (fun i => c.participantIds.contains i) &&
    c.participantIds.length == 2

/-- Outcome of `POST /chats`: HTTP status, the chat of the response body, and
the collection after the request. -/
structure ChatOutcome where
  status : Nat
  chat : Option Chat
  chats : List Chat
deriving DecidableEq

/-- Embeds the `POST /chats` handler (server.js lines 714-738, part_000 lines
1218-1242): falsy participant ids are dropped, the caller is prepended and
the list deduplicated; fewer than two participants → 400; a 1:1 request (two
participants, no truthy title) first looks for an existing non-group chat
with exactly that participant pair and reuses it; otherwise a new chat is
inserted (`isGroup` when more than two participants or a truthy title;
`freshId` stands for the inserted `_id`). -/
def postChats (t callerId : String) (participantIds : List String)
    (title : Option String) (freshId : Nat) (chats : List Chat) :
    ChatOutcome :=
  let ids := participantIds.filter (fun s => s != "")
  let uniqueIds := uniqueKeepFirst (callerId :: ids)
  if uniqueIds.length < 2 then ⟨400, none, chats⟩ else
  let titleTruthy : Bool := match title with
    | some s => s != ""
    | none => false
  let isGroup : Bool := decide (2 < uniqueIds.length) || titleTruthy
  let existing : Option Chat :=
    if isGroup then none else chats.find? (oneToOneQuery t uniqueIds)
  match existing with
  | some c => ⟨201, some c, chats⟩
  | none =>
    let doc : Chat := ⟨freshId, t, isGroup, uniqueIds,
      if titleTruthy then title else none⟩
    ⟨201, some doc, chats ++ [doc]⟩

/-- A document of the `passwordResets` collection (part_000). -/
structure ResetToken where
  id : Nat
  tenantId : String
  email : String
  token : String
  userId : String
  expiresAt : Option Nat
  usedAt : Option Nat
deriving DecidableEq

/-- The collections touched by `applyPasswordReset`. -/
structure ResetState where
  users : List User
  resets : List ResetToken
deriving DecidableEq

/-- Run of `applyPasswordReset`: either a rejection (with HTTP status mapped
from the thrown `badRequestError`), or the two store states produced by the
two successive `updateOne` calls — `s1` after the password hash is replaced
on the user document, `s2` after the token is additionally marked used. -/
inductive ResetRun where
  | rejected (status : Nat) (state : ResetState)
  | applied (s1 s2 : ResetState)
deriving DecidableEq

/-- The `passwordResets.findOne` filter of `applyPasswordReset`: token match,
plus tenant match when a truthy (trimmed nonempty) tenantId was supplied. -/
def resetQuery (ntok : String) (tidQ : Option String) (r : ResetToken) :
    Bool :=
  r.token == ntok &&
    (match tidQ with
     | some tid => r.tenantId == tid
     | none => true)

/-- The tenant component of `resetQuery`: the trimmed tenantId when truthy,
nothing otherwise. -/
def tenantQueryOf (tenantId : Option String) : Option String :=
  match tenantId with
  | some tid => if trimString tid = "" then none else some (trimString tid)
  | none => none

/-- The `users.findOne({ tenantId, email })` lookup of
`applyPasswordReset`. -/
def resetUserQuery (t e : String) (u : User) : Bool :=
  u.tenantId == t && u.email == e

/-- The `$set` of the first `updateOne` of `applyPasswordReset`: store the
new password hash on the user document. -/
def resetHashUpdate (pepper pw : String) (now : Nat) (u : User) : User :=
  { u with passwordHash := some (hashPassword pepper pw), updatedAt := now }

/-- The `$set` of the second `updateOne` of `applyPasswordReset`: mark the
reset token used. -/
def resetUsedUpdate (now : Nat) (r : ResetToken) : ResetToken :=
  { r with usedAt := some now }

/-- Embeds `applyPasswordReset` of part_000 (lines 415-446): reject a blank,
unknown, used or expired token or a missing user with 400; otherwise replace
the user's password hash (`users.updateOne`) and then, in a second separate
`updateOne`, mark the reset token used.  The update-by-`_id` of the source is
rendered as an update of the first document matching the lookup query that
found it.  `now` stands for `new Date()`. -/
def applyPasswordReset (pepper : String) (now : Nat) (token pw : String)
    (tenantId : Option String) (s : ResetState) : ResetRun :=
  let ntok := trimString token
  if ntok = "" then ResetRun.rejected 400 s else
  match s.resets.find? (resetQuery ntok (tenantQueryOf tenantId)) with
  | none => ResetRun.rejected 400 s
  | some reset =>
    if reset.usedAt.isSome then ResetRun.rejected 400 s
    else if reset.expiresAt.any (fun e => decide (e < now)) then
      ResetRun.rejected 400 s
    else
      match s.users.find? (resetUserQuery reset.tenantId reset.email) with
      | none => ResetRun.rejected 400 s
      | some _ =>
        let s1 : ResetState :=
          { s with users := (updateFirst (resetUserQuery reset.tenantId reset.email)
              (resetHashUpdate pepper pw now) s.users) }
        let s2 : ResetState :=
          { s1 with resets := (updateFirst (resetQuery ntok (tenantQueryOf tenantId))
              (resetUsedUpdate now) s1.resets) }
        ResetRun.applied s1 s2

/-- An error response: HTTP status and the string of the body's `error`
field. -/
structure ErrorResponse where
  status : Nat
  errorBody : String
deriving DecidableEq

/-- Embeds the catch block of `POST /auth/signup` (server.js line 234) —
`res.status(500).json` with `error: e.message` — applied to the caught
exception's message; every per-handler catch block of both variants has this
shape. -/
def signupCatch (emsg : String) : ErrorResponse := ⟨500, emsg⟩

/-- Embeds the catch-all error middleware of part_000 (lines 1314-1317):
every error reaching it is logged and answered with a constant generic
body. -/
def catchAllMiddleware (_emsg : String) : ErrorResponse :=
  ⟨500, "Internal server error"⟩

/-- One character of the filename sanitizer of `GET /uploads/:name`
(server.js line 323): the regex replace keeps exactly the ASCII letters,
digits, `.`, `_` and `-`, and replaces every other character by `_`. -/
def sanitizeChar (c : Char) : Char :=
  if c.isAlphanum || c == '.' || c == '_' || c == '-' then c else '_'

/-- Embeds `raw.replace(/[^a-zA-Z0-9._-]/g, "_")` of `GET /uploads/:name`
(server.js lines 320-332, part_000 lines 799-814), applied to the
URL-decoded `:name` parameter. -/
def sanitizeName (s : String) : String :=
  String.mk (s.toList.map sanitizeChar)

/-- Embeds `path.join(UPLOAD_DIR, safe)` for a single separator-free name,
with paths as segment lists: Node's `path.join` drops an empty or `.`
segment and resolves `..` to the parent directory; any other separator-free
name becomes a direct child of the directory. -/
def joinSegment (dir : List String) (name : String) : List String :=
  if name = "" then dir
  else if name = "." then dir
  else if name = ".." then dir.dropLast
  else dir ++ [name]

/-- A filesystem for the upload-serving claim: the sets of directory paths
and of regular-file paths, each as segment lists. -/
structure FileSystem where
  dirs : List (List String)
  files : List (List String)

/-- A JavaScript value as far as the user-object responses go; `undef`
models the JavaScript `undefined`, which `res.json` omits when serializing
an object field. -/
inductive JsVal where
  | str (s : String)
  | num (n : Int)
  | bool (b : Bool)
  | null
  | undef
  | strList (ss : List String)
deriving DecidableEq

/-- The fields of a stored user document, in the order built by the signup
handler (server.js lines 218-228); an absent optional field is rendered as
`undef`, which serializes identically to a missing key. -/
def userDocFields (u : User) : List (String × JsVal) :=
  [("userId", JsVal.str u.userId), ("tenantId", JsVal.str u.tenantId),
   ("email", JsVal.str u.email), ("username", JsVal.str u.username),
   ("name", JsVal.str u.name), ("role", JsVal.str u.role),
   ("providers", JsVal.strList u.providers),
   ("passwordHash", match u.passwordHash with
     | some h => JsVal.str h
     | none => JsVal.undef),
   ("emailVerified", match u.emailVerified with
     | some b => JsVal.bool b
     | none => JsVal.undef),
   ("createdAt", JsVal.num u.createdAt), ("updatedAt", JsVal.num u.updatedAt)]

/-- Spread-with-override, modelling `{ ...doc, k: v }`: an existing key `k`
keeps its position with the new value, a fresh key is appended. -/
def overrideField (k : String) (v : JsVal) (fs : List (String × JsVal)) :
    List (String × JsVal) :=
  if fs.any (fun kv => kv.1 == k) then
    fs.map (fun kv => if kv.1 == k then (kv.1, v) else kv)
  else fs ++ [(k, v)]

/-- JSON serialization of an object's fields as performed by `res.json`:
fields whose value is `undefined` are omitted. -/
def serializeFields (fs : List (String × JsVal)) : List (String × JsVal) :=
  fs.filter (fun kv => kv.2 != JsVal.undef)

/-- The serialized `user` of the `POST /auth/signup` 201 response (server.js
line 233): `{ ...doc, passwordHash: undefined }`. -/
def signupResponseUser (u : User) : List (String × JsVal) :=
  serializeFields (overrideField "passwordHash" JsVal.undef (userDocFields u))

/-- The serialized `user` of the `POST /auth/login` 200 response (server.js
lines 259-260, part_000 lines 574-575): the rest pattern of
`const (pwHash, ...safeUser) = user` removes the `passwordHash` key. -/
def loginResponseUser (u : User) : List (String × JsVal) :=
  serializeFields ((userDocFields u).filter (fun kv => kv.1 != "passwordHash"))

/-- The serialized `user` of the `GET /me` response (server.js lines
265-280): an explicit field list that never mentions `passwordHash`. -/
def meResponseUser (u : User) : List (String × JsVal) :=
  serializeFields
    [("userId", JsVal.str u.userId), ("tenantId", JsVal.str u.tenantId),
     ("role", JsVal.str u.role), ("email", JsVal.str u.email),
     ("username", JsVal.str u.username), ("name", JsVal.str u.name),
     ("providers", JsVal.strList u.providers),
     ("createdAt", JsVal.num u.createdAt), ("updatedAt", JsVal.num u.updatedAt)]

/-- The serialized `user` of the `PATCH /me` and `PATCH /me/role` responses
(server.js lines 282-316): the document re-read with the query projection
`projection: passwordHash 0`, which excludes that field. -/
def patchMeResponseUser (u : User) : List (String × JsVal) :=
  serializeFields ((userDocFields u).filter (fun kv => kv.1 != "passwordHash"))

/-- C3: from a state in which the authenticated user has not liked the post,
calling `POST /posts/:id/like` twice returns a success response with
`liked: true` both times (201 then 200), and the post's `likesCount` after
the second call is exactly one greater than before the first call — the
duplicate insert of the second call is swallowed and does not increment
again. -/
theorem c3_like_twice_increments_once (t u : String) (pid : Nat)
    (likes : List Like) (posts : List Post) (p0 : Post)
    (hnew : likes.any (likeKey t pid u) = false)
    (hpost : posts.find? (postKey pid t) = some p0) :
    (postLike t u pid likes posts).status = 201 ∧
    (postLike t u pid likes posts).liked = true ∧
    (postLike t u pid (postLike t u pid likes posts).likes
        (postLike t u pid likes posts).posts).status = 200 ∧
    (postLike t u pid (postLike t u pid likes posts).likes
        (postLike t u pid likes posts).posts).liked = true ∧
    (postLike t u pid (postLike t u pid likes posts).likes
          (postLike t u pid likes posts).posts).posts.find? (postKey pid t)
      = some { p0 with likesCount := p0.likesCount + 1 } := by
  have hself : likeKey t pid u ⟨t, pid, u⟩ = true := by simp [likeKey]
  have hany :
      (likes ++ [(⟨t, pid, u⟩ : Like)]).any (likeKey t pid u) = true := by
    simp [List.any_append, hself]
  have hkeep : ∀ p : Post,
      postKey pid t { p with likesCount := p.likesCount + 1 }
        = postKey pid t p := by
    intro p; simp [postKey]
  refine ⟨?_, ?_, ?_, ?_, ?_⟩ <;>
    simp [postLike, hnew, hany, find?_updateFirst _ _ _ hkeep, hpost]

/-- Witness for `c3_like_twice_increments_once` at a concrete store. -/
theorem c3_like_twice_increments_once_witness :
    (postLike "t1" "u1" 7 [] [⟨7, "t1", "u2", "hi", "c", none, none, 0, 0, 0, 5⟩]).status = 201 ∧
    (postLike "t1" "u1" 7 [] [⟨7, "t1", "u2", "hi", "c", none, none, 0, 0, 0, 5⟩]).liked = true ∧
    (postLike "t1" "u1" 7
        (postLike "t1" "u1" 7 [] [⟨7, "t1", "u2", "hi", "c", none, none, 0, 0, 0, 5⟩]).likes
        (postLike "t1" "u1" 7 [] [⟨7, "t1", "u2", "hi", "c", none, none, 0, 0, 0, 5⟩]).posts).status = 200 ∧
    (postLike "t1" "u1" 7
        (postLike "t1" "u1" 7 [] [⟨7, "t1", "u2", "hi", "c", none, none, 0, 0, 0, 5⟩]).likes
        (postLike "t1" "u1" 7 [] [⟨7, "t1", "u2", "hi", "c", none, none, 0, 0, 0, 5⟩]).posts).liked = true ∧
    (postLike "t1" "u1" 7
        (postLike "t1" "u1" 7 [] [⟨7, "t1", "u2", "hi", "c", none, none, 0, 0, 0, 5⟩]).likes
        (postLike "t1" "u1" 7 [] [⟨7, "t1", "u2", "hi", "c", none, none, 0, 0, 0, 5⟩]).posts).posts.find?
        (postKey 7 "t1")
      = some ⟨7, "t1", "u2", "hi", "c", none, none, 0, 1, 0, 5⟩ :=
  c3_like_twice_increments_once "t1" "u1" 7 []
    [⟨7, "t1", "u2", "hi", "c", none, none, 0, 0, 0, 5⟩]
    ⟨7, "t1", "u2", "hi", "c", none, none, 0, 0, 0, 5⟩ (by decide) (by decide)

/-- C6: a comment delete by a requester who is neither the comment's author
nor an admin is answered with 403, and the store is untouched — the comment
is still present and the parent post's `commentsCount` is not decremented. -/
theorem c6_comment_delete_forbidden (t reqUserId reqRole : String)
    (pid cid : Nat) (comments : List Comment) (posts : List Post) (c : Comment)
    (hfind : comments.find? (commentKey cid pid t) = some c)
    (howner : c.userId ≠ reqUserId) (hrole : reqRole ≠ "admin") :
    deleteComment t reqUserId reqRole pid cid comments posts
        = ⟨403, comments, posts⟩ ∧
    c ∈ (deleteComment t reqUserId reqRole pid cid comments posts).comments := by
  have h : deleteComment t reqUserId reqRole pid cid comments posts
      = ⟨403, comments, posts⟩ := by
    simp [deleteComment, hfind, howner, hrole]
  exact ⟨h, by rw [h]; exact List.mem_of_find?_eq_some hfind⟩

/-- Witness for `c6_comment_delete_forbidden` at a concrete store. -/
theorem c6_comment_delete_forbidden_witness :
    deleteComment "t1" "eve" "member" 7 3
        [⟨3, "t1", 7, "alice", "hello"⟩]
        [⟨7, "t1", "alice", "p", "c", none, none, 1, 0, 0, 5⟩]
      = ⟨403, [⟨3, "t1", 7, "alice", "hello"⟩],
          [⟨7, "t1", "alice", "p", "c", none, none, 1, 0, 0, 5⟩]⟩ ∧
    (⟨3, "t1", 7, "alice", "hello"⟩ : Comment) ∈
      (deleteComment "t1" "eve" "member" 7 3
        [⟨3, "t1", 7, "alice", "hello"⟩]
        [⟨7, "t1", "alice", "p", "c", none, none, 1, 0, 0, 5⟩]).comments :=
  c6_comment_delete_forbidden "t1" "eve" "member" 7 3
    [⟨3, "t1", 7, "alice", "hello"⟩]
    [⟨7, "t1", "alice", "p", "c", none, none, 1, 0, 0, 5⟩]
    ⟨3, "t1", 7, "alice", "hello"⟩ (by decide) (by decide) (by decide)

/-- C9 counterexample: the per-handler catch block of `POST /auth/signup`
sends the caught exception's own message as the 500 response body — on a
store failure whose message is `boom`, the client receives `boom`, not a
generic message, refuting the claim that the body never includes the
internal exception's message. -/
theorem c9_counterexample :
    (signupCatch "boom").errorBody = "boom" ∧
    (signupCatch "boom").errorBody ≠ "Internal server error" ∧
    signupCatch "boom" ≠ signupCatch "kaboom" := by
  refine ⟨rfl, ?_, ?_⟩ <;> decide

/-- C9 amended: only errors reaching the final catch-all middleware of
part_000 are answered with the constant generic body `Internal server
error`; the per-handler catch blocks (such as the signup handler's) instead
answer 500 with the caught exception's message, so internal detail does
reach the response body on those paths. -/
theorem c9_amended_error_responses :
    (∀ m : String, catchAllMiddleware m = ⟨500, "Internal server error"⟩) ∧
    (∀ m : String, signupCatch m = ⟨500, m⟩) :=
  ⟨fun _ => rfl, fun _ => rfl⟩

/-- C10: no user object returned by signup, login, `GET /me` or
`PATCH /me`/`PATCH /me/role` carries a `passwordHash` field once serialized:
signup overrides the field with `undefined` (dropped by JSON serialization),
login destructures it away, `GET /me` builds an explicit field list, and the
PATCH handlers re-read the document under a projection excluding it. -/
theorem c10_no_password_hash_in_responses (u : User) :
    "passwordHash" ∉ (signupResponseUser u).map Prod.fst ∧
    "passwordHash" ∉ (loginResponseUser u).map Prod.fst ∧
    "passwordHash" ∉ (meResponseUser u).map Prod.fst ∧
    "passwordHash" ∉ (patchMeResponseUser u).map Prod.fst := by
  refine ⟨?_, ?_, ?_, ?_⟩ <;>
    cases hp : u.passwordHash <;> cases he : u.emailVerified <;>
      simp [signupResponseUser, loginResponseUser, meResponseUser,
        patchMeResponseUser, userDocFields, overrideField, serializeFields, hp, he]

theorem postChats_two (t u1 u2 : String) (f : Nat) (chats : List Chat)
    (h12 : u1 ≠ u2) (h2 : u2 ≠ "") :
    postChats t u1 [u2] none f chats =
      match chats.find? (oneToOneQuery t [u1, u2]) with
      | some c => ⟨201, some c, chats⟩
      | none => ⟨201, some ⟨f, t, false, [u1, u2], none⟩,
          chats ++ [⟨f, t, false, [u1, u2], none⟩]⟩ := by
  have huniq : uniqueKeepFirst [u1, u2] = [u1, u2] := by
    simp [uniqueKeepFirst, dedupGo, Ne.symm h12]
  have hu2 : (u2 != "") = true := by simpa using h2
  simp only [postChats, List.filter, hu2, huniq, List.length_cons,
    List.length_nil]
  norm_num

theorem postChats_three (t u1 u2 u3 : String) (f : Nat) (chats : List Chat)
    (h12 : u1 ≠ u2) (h13 : u1 ≠ u3) (h23 : u2 ≠ u3) (h2 : u2 ≠ "")
    (h3 : u3 ≠ "") :
    postChats t u1 [u2, u3] none f chats =
      ⟨201, some ⟨f, t, true, [u1, u2, u3], none⟩,
        chats ++ [⟨f, t, true, [u1, u2, u3], none⟩]⟩ := by
  have huniq : uniqueKeepFirst [u1, u2, u3] = [u1, u2, u3] := by
    simp [uniqueKeepFirst, dedupGo, Ne.symm h12, Ne.symm h13, Ne.symm h23]
  have hu2 : (u2 != "") = true := by simpa using h2
  have hu3 : (u3 != "") = true := by simpa using h3
  simp only [postChats, List.filter, hu2, hu3, huniq, List.length_cons,
    List.length_nil]
  norm_num

/-- C4: calling `POST /chats` twice with the same two distinct participants
and no title returns the same chat record both times — the second call finds
the stored 1:1 chat and inserts nothing — while a call whose deduplicated
participant set has three members inserts a new chat with `isGroup` true. -/
theorem c4_chat_dedup (t u1 u2 u3 : String) (f1 f2 f3 : Nat)
    (chats0 : List Chat) (h12 : u1 ≠ u2) (h2 : u2 ≠ "") (h13 : u1 ≠ u3)
    (h23 : u2 ≠ u3) (h3 : u3 ≠ "") :
    (postChats t u1 [u2] none f1 chats0).status = 201 ∧
    (postChats t u1 [u2] none f2
        (postChats t u1 [u2] none f1 chats0).chats).status = 201 ∧
    (postChats t u1 [u2] none f2
        (postChats t u1 [u2] none f1 chats0).chats).chat
      = (postChats t u1 [u2] none f1 chats0).chat ∧
    (postChats t u1 [u2] none f2
        (postChats t u1 [u2] none f1 chats0).chats).chats
      = (postChats t u1 [u2] none f1 chats0).chats ∧
    (postChats t u1 [u2] none f1 chats0).chat.isSome = true ∧
    (postChats t u1 [u2, u3] none f3 chats0).chat
      = some ⟨f3, t, true, [u1, u2, u3], none⟩ ∧
    (postChats t u1 [u2, u3] none f3 chats0).chats
      = chats0 ++ [⟨f3, t, true, [u1, u2, u3], none⟩] := by
  have hq : ∀ fid : Nat,
      oneToOneQuery t [u1, u2] ⟨fid, t, false, [u1, u2], none⟩ = true := by
    intro fid; simp [oneToOneQuery]
  rcases hfind : chats0.find? (oneToOneQuery t [u1, u2]) with _ | c
  · have h1 : postChats t u1 [u2] none f1 chats0
        = ⟨201, some ⟨f1, t, false, [u1, u2], none⟩,
            chats0 ++ [⟨f1, t, false, [u1, u2], none⟩]⟩ := by
      rw [postChats_two t u1 u2 f1 chats0 h12 h2, hfind]
    have hfind2 : (chats0 ++ [(⟨f1, t, false, [u1, u2], none⟩ : Chat)]).find?
        (oneToOneQuery t [u1, u2]) = some ⟨f1, t, false, [u1, u2], none⟩ := by
      rw [List.find?_append, hfind]
      simp [List.find?_cons, hq f1]
    have h2' : postChats t u1 [u2] none f2
        (chats0 ++ [(⟨f1, t, false, [u1, u2], none⟩ : Chat)])
        = ⟨201, some ⟨f1, t, false, [u1, u2], none⟩,
            chats0 ++ [⟨f1, t, false, [u1, u2], none⟩]⟩ := by
      rw [postChats_two t u1 u2 f2 _ h12 h2, hfind2]
    refine ⟨?_, ?_, ?_, ?_, ?_, ?_, ?_⟩ <;>
      simp [h1, h2', postChats_three t u1 u2 u3 f3 chats0 h12 h13 h23 h2 h3]
  · have h1 : postChats t u1 [u2] none f1 chats0 = ⟨201, some c, chats0⟩ := by
      rw [postChats_two t u1 u2 f1 chats0 h12 h2, hfind]
    have h2' : postChats t u1 [u2] none f2 chats0 = ⟨201, some c, chats0⟩ := by
      rw [postChats_two t u1 u2 f2 chats0 h12 h2, hfind]
    refine ⟨?_, ?_, ?_, ?_, ?_, ?_, ?_⟩ <;>
      simp [h1, h2', postChats_three t u1 u2 u3 f3 chats0 h12 h13 h23 h2 h3]

/-- Witness for `c4_chat_dedup` at a concrete store. -/
theorem c4_chat_dedup_witness :
    (postChats "t1" "alice" ["bob"] none 1 []).status = 201 ∧
    (postChats "t1" "alice" ["bob"] none 2
        (postChats "t1" "alice" ["bob"] none 1 []).chats).status = 201 ∧
    (postChats "t1" "alice" ["bob"] none 2
        (postChats "t1" "alice" ["bob"] none 1 []).chats).chat
      = (postChats "t1" "alice" ["bob"] none 1 []).chat ∧
    (postChats "t1" "alice" ["bob"] none 2
        (postChats "t1" "alice" ["bob"] none 1 []).chats).chats
      = (postChats "t1" "alice" ["bob"] none 1 []).chats ∧
    (postChats "t1" "alice" ["bob"] none 1 []).chat.isSome = true ∧
    (postChats "t1" "alice" ["bob", "carol"] none 3 []).chat
      = some ⟨3, "t1", true, ["alice", "bob", "carol"], none⟩ ∧
    (postChats "t1" "alice" ["bob", "carol"] none 3 []).chats
      = [] ++ [⟨3, "t1", true, ["alice", "bob", "carol"], none⟩] :=
  c4_chat_dedup "t1" "alice" "bob" "carol" 1 2 3 [] (by decide) (by decide)
    (by decide) (by decide) (by decide)

theorem sanitizeChar_ne_sep (c : Char) : sanitizeChar c ≠ '/' := by
  by_cases hc : (c.isAlphanum || c == '.' || c == '_' || c == '-') = true
  · simp only [sanitizeChar, if_pos hc]
    intro h; subst h; exact absurd hc (by decide)
  · simp only [sanitizeChar, if_neg hc]; decide

/-- C7: the path served by `GET /uploads/:name` never resolves to a regular
file outside the upload directory: sanitization leaves no path separator in
the name, so the joined path is the upload directory itself (name sanitized
to empty or `.`), its parent (name sanitized to `..`) — both directories,
not regular files — or a direct child of the upload directory.  Hence
whenever the resolved path is a regular file at all, it lies directly inside
the upload directory. -/
theorem c7_uploads_no_escape (fs : FileSystem) (uploadDir : List String)
    (hdir : uploadDir ∈ fs.dirs) (hparent : uploadDir.dropLast ∈ fs.dirs)
    (hdisj : ∀ p ∈ fs.dirs, p ∉ fs.files) (raw : String) :
    ((sanitizeName raw).toList.all (fun c => c != '/')) = true ∧
    (joinSegment uploadDir (sanitizeName raw) ∈ fs.files →
      joinSegment uploadDir (sanitizeName raw)
        = uploadDir ++ [sanitizeName raw]) := by
  constructor
  · have : ∀ l : List Char, ((l.map sanitizeChar).all (fun c => c != '/')) = true := by
      intro l
      simp only [List.all_map, List.all_eq_true, Function.comp, bne_iff_ne, ne_eq]
      intro a _
      exact sanitizeChar_ne_sep a
    simpa [sanitizeName] using this raw.toList
  · intro hmem
    by_cases h0 : sanitizeName raw = ""
    · rw [joinSegment, if_pos h0] at hmem
      exact absurd hmem (hdisj _ hdir)
    · by_cases hdot : sanitizeName raw = "."
      · rw [joinSegment, if_neg h0, if_pos hdot] at hmem
        exact absurd hmem (hdisj _ hdir)
      · by_cases hdd : sanitizeName raw = ".."
        · rw [joinSegment, if_neg h0, if_neg hdot, if_pos hdd] at hmem
          exact absurd hmem (hdisj _ hparent)
        · rw [joinSegment, if_neg h0, if_neg hdot, if_neg hdd]

/-- Witness for `c7_uploads_no_escape` at the traversal-style name of the
spec: `../../etc/passwd` sanitizes to `.._.._etc_passwd`, which joins to a
direct child of the upload directory. -/
theorem c7_uploads_no_escape_witness :
    sanitizeName "../../etc/passwd" = ".._.._etc_passwd" ∧
    ((sanitizeName "../../etc/passwd").toList.all (fun c => c != '/')) = true ∧
    (joinSegment ["srv", "uploads"] (sanitizeName "../../etc/passwd")
        ∈ (FileSystem.mk [[], ["srv"], ["srv", "uploads"]]
            [["srv", "uploads", "a.png"], ["etc", "passwd"]]).files →
      joinSegment ["srv", "uploads"] (sanitizeName "../../etc/passwd")
        = ["srv", "uploads"] ++ [sanitizeName "../../etc/passwd"]) :=
  ⟨by decide,
    c7_uploads_no_escape
      (FileSystem.mk [[], ["srv"], ["srv", "uploads"]]
        [["srv", "uploads", "a.png"], ["etc", "passwd"]])
      ["srv", "uploads"] (by decide) (by decide) (by decide) "../../etc/passwd"⟩

theorem mem_insertByLe (le : Post → Post → Bool) (x a : Post)
    (l : List Post) (h : a ∈ insertByLe le x l) : a = x ∨ a ∈ l := by
  induction l with
  | nil => simpa [insertByLe] using h
  | cons y ys ih =>
    rw [insertByLe] at h
    by_cases hle : (le x y) = true
    · rw [if_pos hle] at h
      rcases List.mem_cons.1 h with h | h
      · exact Or.inl h
      · exact Or.inr h
    · rw [if_neg hle] at h
      rcases List.mem_cons.1 h with h | h
      · exact Or.inr (h ▸ List.mem_cons_self y ys)
      · rcases ih h with h' | h'
        · exact Or.inl h'
        · exact Or.inr (List.mem_cons_of_mem y h')

theorem mem_sortByLe (le : Post → Post → Bool) (a : Post) (l : List Post)
    (h : a ∈ sortByLe le l) : a ∈ l := by
  induction l with
  | nil => simp [sortByLe] at h
  | cons y ys ih =>
    rw [sortByLe] at h
    rcases mem_insertByLe le y a _ h with h' | h'
    · exact h' ▸ List.mem_cons_self y ys
    · exact List.mem_cons_of_mem y (ih h')

/-- C5: with `radiusKm = 0`, the geo branch of `GET /posts` filters on
spherical distance at most `Math.max(0, 0) * 1000 = 0` meters, so — for any
distance function that is nonnegative and vanishes exactly on coinciding
points, as spherical distance does — every returned post's stored location
coincides with the query point; no post at positive distance is returned. -/
theorem c5_zero_radius_exact_location (d : GeoPoint → GeoPoint → ℤ)
    (hzero : ∀ a b, d a b = 0 ↔ a = b) (hnn : ∀ a b, 0 ≤ d a b)
    (near : GeoPoint) (lim : Nat) (tenantId me : String) (posts : List Post)
    (likes : List Like) (pr : Post × Bool)
    (hmem : pr ∈ geoPosts d near 0 lim tenantId me posts likes) :
    pr.1.location = some near := by
  rcases List.mem_map.1 hmem with ⟨q, hq, rfl⟩
  have hq' : q ∈ sortByLe (geoLe d near)
      (geoNearFilter d near (mathMax 0 0 * 1000) tenantId posts) :=
    List.take_subset _ _ hq
  have hq'' := mem_sortByLe _ _ _ hq'
  have hcond := (List.mem_filter.1 hq'').2
  rcases hloc : q.location with _ | loc
  · rw [hloc] at hcond; simp at hcond
  · rw [hloc] at hcond
    simp only [Bool.and_eq_true, decide_eq_true_eq] at hcond
    have hle : d loc near ≤ mathMax 0 0 * 1000 := hcond.2
    have hzero' : mathMax (0 : ℤ) 0 * 1000 = 0 := by decide
    have : d loc near = 0 := le_antisymm (hzero' ▸ hle) (hnn loc near)
    simp [hloc, (hzero loc near).1 this]

/-- The discrete metric on geo points, instantiating the distance parameter
of the geo pipeline in the witness. -/
def discreteDist (a b : GeoPoint) : ℤ := if a = b then 0 else 1

/-- Witness for `c5_zero_radius_exact_location`: with a post at the query
point, a post elsewhere and a post without location, the zero-radius result
contains the coincident post and its location is the query point. -/
theorem c5_zero_radius_exact_location_witness :
    ((⟨⟨1, "t1", "u2", "a", "b", none, some ⟨0, 0⟩, 0, 0, 0, 5⟩, false⟩ :
        Post × Bool) ∈ geoPosts discreteDist ⟨0, 0⟩ 0 50 "t1" "me"
        [⟨1, "t1", "u2", "a", "b", none, some ⟨0, 0⟩, 0, 0, 0, 5⟩,
         ⟨2, "t1", "u2", "c", "d", none, some ⟨3, 4⟩, 0, 0, 0, 6⟩,
         ⟨3, "t1", "u2", "e", "f", none, none, 0, 0, 0, 7⟩] []) ∧
    (⟨⟨1, "t1", "u2", "a", "b", none, some ⟨0, 0⟩, 0, 0, 0, 5⟩, false⟩ :
        Post × Bool).1.location = some ⟨0, 0⟩ :=
  ⟨by decide,
    c5_zero_radius_exact_location discreteDist
      (by
        intro a b
        by_cases h : a = b <;> simp [discreteDist, h])
      (by
        intro a b
        by_cases h : a = b <;> simp [discreteDist, h])
      ⟨0, 0⟩ 50 "t1" "me"
      [⟨1, "t1", "u2", "a", "b", none, some ⟨0, 0⟩, 0, 0, 0, 5⟩,
       ⟨2, "t1", "u2", "c", "d", none, some ⟨3, 4⟩, 0, 0, 0, 6⟩,
       ⟨3, "t1", "u2", "e", "f", none, none, 0, 0, 0, 7⟩] []
      ⟨⟨1, "t1", "u2", "a", "b", none, some ⟨0, 0⟩, 0, 0, 0, 5⟩, false⟩
      (by decide)⟩

theorem requireAuthA_granted (secret : String) (users : List User)
    (header : Option AuthHeader) (c : TokenClaims) (u : User)
    (hg : requireAuthA secret users header = AuthOutcome.granted c u) :
    header = some ⟨"Bearer", some (Token.signed secret c)⟩ ∧
    findUserById users c.userId c.tenantId = some u := by
  cases header with
  | none => simp [requireAuthA] at hg
  | some h =>
    rcases h with ⟨scheme, credentials⟩
    by_cases hs : (scheme != "Bearer") = true
    · simp [requireAuthA, hs] at hg
    · have hs' : scheme = "Bearer" := by simpa using hs
      cases credentials with
      | none => simp [requireAuthA, hs] at hg
      | some tok =>
        cases tok with
        | malformed r => simp [requireAuthA, hs, verifyToken] at hg
        | signed s cl =>
          by_cases hsec : s = secret
          · subst hsec
            cases hf : findUserById users cl.userId cl.tenantId with
            | none => simp [requireAuthA, hs, verifyToken, hf] at hg
            | some u' =>
              simp only [requireAuthA, hs, verifyToken, if_true, if_neg hs,
                if_pos rfl, hf] at hg
              injection hg with h1 h2
              subst h1; subst h2; subst hs'
              exact ⟨rfl, hf⟩
          · simp [requireAuthA, hs, verifyToken, hsec] at hg

/-- C2 amended: in the server.js variant a request is authenticated exactly
when it carries `Authorization: Bearer <token>` with a token signed under
the server secret whose claims resolve to a stored user, and a request
without the header is rejected with 401; in the part_000 variant a `token`
query parameter is accepted in place of the header, and 401 is returned only
when both the header and the query token are absent. -/
theorem c2_amended_auth (secret : String) :
    (∀ users : List User, requireAuthA secret users none
        = AuthOutcome.denied 401 "Missing Authorization header") ∧
    (∀ (users : List User) (header : Option AuthHeader) (c : TokenClaims)
        (u : User),
      requireAuthA secret users header = AuthOutcome.granted c u →
        header = some ⟨"Bearer", some (Token.signed secret c)⟩ ∧
        findUserById users c.userId c.tenantId = some u) ∧
    (∀ users : List User, requireAuthB secret users none none
        = AuthOutcome.denied 401 "Missing Authorization header") ∧
    (∀ (users : List User) (header : Option AuthHeader)
        (qt : Option Token) (c : TokenClaims) (u : User),
      requireAuthB secret users header qt = AuthOutcome.granted c u →
        (header = some ⟨"Bearer", some (Token.signed secret c)⟩ ∨
          (header = none ∧ qt = some (Token.signed secret c))) ∧
        findUserById users c.userId c.tenantId = some u) := by
  refine ⟨fun users => rfl, requireAuthA_granted secret, fun users => rfl, ?_⟩
  intro users header qt c u hg
  cases header with
  | some h =>
    have := requireAuthA_granted secret users (some h) c u (by simpa [requireAuthB] using hg)
    exact ⟨Or.inl this.1, this.2⟩
  | none =>
    cases qt with
    | none => simp [requireAuthB, requireAuthA] at hg
    | some tok =>
      have := requireAuthA_granted secret users (some ⟨"Bearer", some tok⟩) c u
        (by simpa [requireAuthB] using hg)
      have htok : tok = Token.signed secret c := by
        have h1 := this.1
        injection h1 with h2
        injection h2 with _ h3
        injection h3
      exact ⟨Or.inr ⟨rfl, by rw [htok]⟩, this.2⟩

/-- A concrete stored user shared by the authentication examples. -/
def exUser : User :=
  ⟨"u1", "t1", "a@b.co", "alice", "Alice", "member", ["local"], some "h",
    none, 0, 0⟩

/-- The token claims matching `exUser`. -/
def exClaims : TokenClaims := ⟨"u1", "t1", "member", "a@b.co", "Alice"⟩

/-- Witness for `c2_amended_auth` at a concrete user and token. -/
theorem c2_amended_auth_witness :
    requireAuthA "sec" [exUser] none
      = AuthOutcome.denied 401 "Missing Authorization header" ∧
    (some ⟨"Bearer", some (Token.signed "sec" exClaims)⟩
        = some (⟨"Bearer", some (Token.signed "sec" exClaims)⟩ : AuthHeader) ∧
      findUserById [exUser] exClaims.userId exClaims.tenantId = some exUser) :=
  ⟨(c2_amended_auth "sec").1 [exUser],
    (c2_amended_auth "sec").2.1 [exUser]
      (some ⟨"Bearer", some (Token.signed "sec" exClaims)⟩) exClaims exUser
      (by decide)⟩

/-- C2 counterexample: in the part_000 variant a request carrying no
`Authorization` header at all is authenticated through the `token` query
parameter, refuting the claim that a request is authenticated only when it
carries such a header and that any request without one is rejected with
401. -/
theorem c2_counterexample :
    requireAuthB "sec" [exUser] none (some (Token.signed "sec" exClaims))
      = AuthOutcome.granted exClaims exUser := by decide

/-- A stored user for the password-reset examples. -/
def c8user : User :=
  ⟨"local:t1:a@b.co", "t1", "a@b.co", "alice", "Alice", "member", ["local"],
    some (hashPassword "pep" "oldpassword1"), some true, 0, 0⟩

/-- A fresh, unused, unexpired reset token for `c8user`. -/
def c8reset : ResetToken :=
  ⟨1, "t1", "a@b.co", "resettoken01", "local:t1:a@b.co", some 5000, none⟩

/-- C8 counterexample: on a fresh, unused, unexpired token the confirm path
runs two separate `updateOne` calls, and the run passes through the
intermediate state `s1` in which the user's password hash has already been
replaced while the reset token is still unused (`s1` carries the original
`resets` list, whose token has `usedAt = none`) — refuting the claim that no
such observable intermediate state exists. -/
theorem c8_counterexample :
    applyPasswordReset "pep" 1000 "resettoken01" "newpassword1" (some "t1")
        ⟨[c8user], [c8reset]⟩
      = ResetRun.applied
          ⟨[resetHashUpdate "pep" "newpassword1" 1000 c8user], [c8reset]⟩
          ⟨[resetHashUpdate "pep" "newpassword1" 1000 c8user],
            [resetUsedUpdate 1000 c8reset]⟩ ∧
    c8reset.usedAt = none ∧
    (resetHashUpdate "pep" "newpassword1" 1000 c8user).passwordHash
      ≠ c8user.passwordHash := by
  refine ⟨?_, rfl, ?_⟩ <;> decide

/-- C8 amended: for every fresh, unused, unexpired token whose user exists,
the confirm path succeeds and performs the password-hash replacement and the
used-marking as two separate sequential updates: the final state carries
both changes, but the run exposes an intermediate state whose `resets` list
is still the original one — the password hash is already replaced there
while the token is still marked unused. -/
theorem c8_amended_two_step_reset (pepper : String) (now : Nat)
    (token pw : String) (tenantId : Option String) (s : ResetState)
    (r : ResetToken) (hne : trimString token ≠ "")
    (hfind : s.resets.find? (resetQuery (trimString token)
        (tenantQueryOf tenantId)) = some r)
    (hunused : r.usedAt = none)
    (hfresh : r.expiresAt.any (fun e => decide (e < now)) = false)
    (huser : (s.users.find? (resetUserQuery r.tenantId r.email)).isSome
        = true) :
    applyPasswordReset pepper now token pw tenantId s
      = ResetRun.applied
          ⟨updateFirst (resetUserQuery r.tenantId r.email)
              (resetHashUpdate pepper pw now) s.users,
            s.resets⟩
          ⟨updateFirst (resetUserQuery r.tenantId r.email)
              (resetHashUpdate pepper pw now) s.users,
            updateFirst (resetQuery (trimString token) (tenantQueryOf tenantId))
              (resetUsedUpdate now) s.resets⟩ ∧
    s.resets.find? (resetQuery (trimString token) (tenantQueryOf tenantId))
      = some r ∧
    r.usedAt = none := by
  refine ⟨?_, hfind, hunused⟩
  rcases hu : s.users.find? (resetUserQuery r.tenantId r.email) with _ | u0
  · rw [hu] at huser; simp at huser
  · simp only [applyPasswordReset, hfind, hu, hunused, hfresh,
      Option.isSome_none, Bool.false_eq_true, if_false, if_neg hne]

/-- Witness for `c8_amended_two_step_reset` at the concrete token store. -/
theorem c8_amended_two_step_reset_witness :
    applyPasswordReset "pep" 1000 "resettoken01" "newpassword1" (some "t1")
        ⟨[c8user], [c8reset]⟩
      = ResetRun.applied
          ⟨updateFirst (resetUserQuery c8reset.tenantId c8reset.email)
              (resetHashUpdate "pep" "newpassword1" 1000) [c8user],
            [c8reset]⟩
          ⟨updateFirst (resetUserQuery c8reset.tenantId c8reset.email)
              (resetHashUpdate "pep" "newpassword1" 1000) [c8user],
            updateFirst (resetQuery (trimString "resettoken01")
                (tenantQueryOf (some "t1")))
              (resetUsedUpdate 1000) [c8reset]⟩ ∧
    ([c8reset].find? (resetQuery (trimString "resettoken01")
        (tenantQueryOf (some "t1")))) = some c8reset ∧
    c8reset.usedAt = none :=
  c8_amended_two_step_reset "pep" 1000 "resettoken01" "newpassword1"
    (some "t1") ⟨[c8user], [c8reset]⟩ c8reset (by decide) (by decide)
    (by decide) (by decide) (by decide)

theorem emailRest_length (cs : List Char) (h : emailRest cs = true) :
    2 ≤ cs.length := by
  induction cs with
  | nil => simp [emailRest] at h
  | cons c rest ih =>
    simp only [emailRest] at h
    by_cases hc : c = '@'
    · rw [if_pos hc] at h
      cases rest with
      | nil => simp [domainChars] at h
      | cons d ds => simp [List.length_cons]
    · rw [if_neg hc] at h
      have := ih h
      simp only [List.length_cons]
      omega

theorem emailFormatOk_length (s : String) (h : emailFormatOk s = true) :
    3 ≤ s.length := by
  have hlen : s.length = s.toList.length := rfl
  rw [hlen]
  rcases hcs : s.toList with _ | ⟨c, rest⟩
  · simp only [emailFormatOk, hcs] at h
    exact absurd h (by simp)
  · simp only [emailFormatOk, hcs] at h
    by_cases hc : c = '@'
    · rw [if_pos hc] at h; exact absurd h (by simp)
    · rw [if_neg hc] at h
      have := emailRest_length rest h
      simp only [List.length_cons]
      omega

theorem signupA_201_inv (pepper secret : String) (now : Nat)
    (users : List User) (p : SignupPayload)
    (h : (signupA pepper secret now users p).status = 201) :
    signupSchemaCheck p = true ∧
    users.find? (emailOrUsernameQuery p.tenantId (lowerString p.email)
        (lowerString p.username)) = none := by
  by_cases hs : signupSchemaCheck p = false
  · simp [signupA, hs] at h
  · have hs' : signupSchemaCheck p = true := by simpa using hs
    cases hf : users.find? (emailOrUsernameQuery p.tenantId
        (lowerString p.email) (lowerString p.username)) with
    | some u => simp [signupA, hs', hf] at h
    | none => exact ⟨hs', rfl⟩

theorem signupA_eq (pepper secret : String) (now : Nat) (users : List User)
    (p : SignupPayload) (hs : signupSchemaCheck p = true)
    (hf : users.find? (emailOrUsernameQuery p.tenantId (lowerString p.email)
        (lowerString p.username)) = none) :
    signupA pepper secret now users p
      = ⟨201, some (Token.signed secret (signupClaims p)),
          some (signupDoc pepper now p none),
          users ++ [signupDoc pepper now p none]⟩ := by
  simp [signupA, hs, hf, signToken, signupClaims, signupDoc]

theorem signupB_eq (pepper : String) (now ttl : Nat) (vtok : String)
    (users : List User) (everifs : List VerificationToken) (p : SignupPayload)
    (hs : signupSchemaCheck p = true)
    (hf : users.find? (emailOrUsernameQuery p.tenantId (lowerString p.email)
        (lowerString p.username)) = none) :
    (signupB pepper now ttl vtok users everifs p).status = 201 ∧
    (signupB pepper now ttl vtok users everifs p).users
      = users ++ [signupDoc pepper now p (some false)] := by
  constructor <;> simp [signupB, hs, hf]

theorem find_append_new (users : List User) (doc : User) (tid s : String)
    (hnone : ∀ u ∈ users, ¬(emailOrUsernameQuery tid s s u = true))
    (hdoc : emailOrUsernameQuery tid s s doc = true) :
    (users ++ [doc]).find? (emailOrUsernameQuery tid s s) = some doc := by
  rw [List.find?_append, List.find?_eq_none.mpr hnone]
  simp [List.find?_cons, hdoc]

theorem no_earlier_match_email (users : List User) (p : SignupPayload)
    (hf : users.find? (emailOrUsernameQuery p.tenantId (lowerString p.email)
        (lowerString p.username)) = none)
    (hshadow : ∀ u ∈ users, u.tenantId = p.tenantId →
        u.username ≠ lowerString p.email) :
    ∀ u ∈ users, ¬(emailOrUsernameQuery p.tenantId (lowerString p.email)
        (lowerString p.email) u = true) := by
  intro u hu hq
  have hnq := List.find?_eq_none.mp hf u hu
  simp only [emailOrUsernameQuery, Bool.and_eq_true, Bool.or_eq_true,
    beq_iff_eq] at hq hnq
  rcases hq with ⟨ht, he | hun⟩
  · exact hnq ⟨ht, Or.inl he⟩
  · exact hshadow u hu ht hun

theorem no_earlier_match_username (users : List User) (p : SignupPayload)
    (hf : users.find? (emailOrUsernameQuery p.tenantId (lowerString p.email)
        (lowerString p.username)) = none)
    (hshadow : ∀ u ∈ users, u.tenantId = p.tenantId →
        u.email ≠ lowerString p.username) :
    ∀ u ∈ users, ¬(emailOrUsernameQuery p.tenantId (lowerString p.username)
        (lowerString p.username) u = true) := by
  intro u hu hq
  have hnq := List.find?_eq_none.mp hf u hu
  simp only [emailOrUsernameQuery, Bool.and_eq_true, Bool.or_eq_true,
    beq_iff_eq] at hq hnq
  rcases hq with ⟨ht, he | hun⟩
  · exact hshadow u hu ht he
  · exact hnq ⟨ht, Or.inr hun⟩

theorem doc_matches_email (pepper : String) (now : Nat) (p : SignupPayload)
    (v : Option Bool) :
    emailOrUsernameQuery p.tenantId (lowerString p.email)
      (lowerString p.email) (signupDoc pepper now p v) = true := by
  simp [emailOrUsernameQuery, signupDoc]

theorem doc_matches_username (pepper : String) (now : Nat) (p : SignupPayload)
    (v : Option Bool) :
    emailOrUsernameQuery p.tenantId (lowerString p.username)
      (lowerString p.username) (signupDoc pepper now p v) = true := by
  simp [emailOrUsernameQuery, signupDoc]

theorem loginA_success (pepper secret : String) (users1 : List User)
    (doc : User) (q : LoginPayload) (hl : loginSchemaCheck q = true)
    (hfind : users1.find? (emailOrUsernameQuery q.tenantId
        (lowerString q.emailOrUsername) (lowerString q.emailOrUsername))
      = some doc)
    (hhash : doc.passwordHash = some (hashPassword pepper q.password)) :
    loginA pepper secret users1 q
      = ⟨200, some (Token.signed secret
          ⟨doc.userId, doc.tenantId, doc.role, doc.email, doc.name⟩),
        none⟩ := by
  simp [loginA, hl, hfind, hhash, verifyPassword, signToken]

theorem loginB_notVerified (pepper secret : String) (users1 : List User)
    (doc : User) (q : LoginPayload) (hl : loginSchemaCheck q = true)
    (hfind : users1.find? (emailOrUsernameQuery q.tenantId
        (lowerString q.emailOrUsername) (lowerString q.emailOrUsername))
      = some doc)
    (hhash : doc.passwordHash = some (hashPassword pepper q.password))
    (hv : doc.emailVerified = some false) :
    loginB pepper secret users1 q = ⟨403, none, some "EMAIL_NOT_VERIFIED"⟩ := by
  simp [loginB, hl, hfind, hhash, verifyPassword, hv]

/-- A valid signup payload used by the authentication examples. -/
def c1payload : SignupPayload := ⟨"t1", "a@b.co", "alice", "password1", "Alice"⟩

/-- A valid signup payload whose username is the email address of
`c1payload` — accepted by the signup schema, which places no shape
constraint on usernames. -/
def c1payloadBob : SignupPayload :=
  ⟨"t1", "bob@x.co", "a@b.co", "password2", "Bob"⟩

/-- C1 counterexample.  First: in the part_000 variant a freshly signed-up
account (201) cannot log in at all — the same credentials are answered with
403 `EMAIL_NOT_VERIFIED`, not 200, because signup stores
`emailVerified: false`.  Second: even in the server.js variant, in a state
reachable purely through the API (another user of the same tenant signed up
earlier with username `a@b.co`), a signup with email `a@b.co` is accepted
(201) but the subsequent login by that email resolves to the earlier user —
`findOne` matches its username first — and fails with 401. -/
theorem c1_counterexample :
    (signupB "pep" 0 100 "vtok" [] [] c1payload).status = 201 ∧
    loginB "pep" "sec" (signupB "pep" 0 100 "vtok" [] [] c1payload).users
        ⟨"t1", "a@b.co", "password1"⟩
      = ⟨403, none, some "EMAIL_NOT_VERIFIED"⟩ ∧
    (loginB "pep" "sec" (signupB "pep" 0 100 "vtok" [] [] c1payload).users
        ⟨"t1", "a@b.co", "password1"⟩).status ≠ 200 ∧
    (signupA "pep" "sec" 0 [] c1payloadBob).status = 201 ∧
    (signupA "pep" "sec" 0 (signupA "pep" "sec" 0 [] c1payloadBob).users
        c1payload).status = 201 ∧
    (loginA "pep" "sec"
        (signupA "pep" "sec" 0 (signupA "pep" "sec" 0 [] c1payloadBob).users
          c1payload).users ⟨"t1", "a@b.co", "password1"⟩).status = 401 := by
  refine ⟨?_, ?_, ?_, ?_, ?_, ?_⟩ <;> decide

/-- C1 amended: for every signup payload accepted with 201, provided no
earlier account of the tenant uses the payload's email as its username (or
its username as its email), the server.js variant answers a subsequent login
with the same tenant, the same email or username and the same password with
200 and a token whose decoded `userId` equals the `userId` of the user
created at signup; the part_000 variant accepts the same signup but answers
the same login with 403 `EMAIL_NOT_VERIFIED` until the email is verified. -/
theorem c1_amended_signup_login (pepper secret : String) (nowA nowB ttl : Nat)
    (vtok : String) (users : List User) (everifs : List VerificationToken)
    (p : SignupPayload)
    (hshadowU : ∀ u ∈ users, u.tenantId = p.tenantId →
        u.username ≠ lowerString p.email)
    (hshadowE : ∀ u ∈ users, u.tenantId = p.tenantId →
        u.email ≠ lowerString p.username)
    (hA : (signupA pepper secret nowA users p).status = 201) :
    (signupA pepper secret nowA users p).user
      = some (signupDoc pepper nowA p none) ∧
    loginA pepper secret (signupA pepper secret nowA users p).users
        ⟨p.tenantId, p.email, p.password⟩
      = ⟨200, some (Token.signed secret (signupClaims p)), none⟩ ∧
    loginA pepper secret (signupA pepper secret nowA users p).users
        ⟨p.tenantId, p.username, p.password⟩
      = ⟨200, some (Token.signed secret (signupClaims p)), none⟩ ∧
    verifyToken secret (Token.signed secret (signupClaims p))
      = some (signupClaims p) ∧
    (signupClaims p).userId = (signupDoc pepper nowA p none).userId ∧
    (signupB pepper nowB ttl vtok users everifs p).status = 201 ∧
    loginB pepper secret (signupB pepper nowB ttl vtok users everifs p).users
        ⟨p.tenantId, p.email, p.password⟩
      = ⟨403, none, some "EMAIL_NOT_VERIFIED"⟩ := by
  obtain ⟨hs, hf⟩ := signupA_201_inv pepper secret nowA users p hA
  have hsparts := hs
  simp only [signupSchemaCheck, Bool.and_eq_true, decide_eq_true_eq]
    at hsparts
  obtain ⟨⟨⟨⟨⟨⟨h1, h2⟩, h3⟩, h4⟩, h5⟩, h6⟩, h7⟩ := hsparts
  have hl1 : loginSchemaCheck ⟨p.tenantId, p.email, p.password⟩ = true := by
    simp only [loginSchemaCheck, Bool.and_eq_true, decide_eq_true_eq]
    exact ⟨⟨h1, emailFormatOk_length _ h2⟩, h5⟩
  have hl2 : loginSchemaCheck ⟨p.tenantId, p.username, p.password⟩ = true := by
    simp only [loginSchemaCheck, Bool.and_eq_true, decide_eq_true_eq]
    exact ⟨⟨h1, h3⟩, h5⟩
  have heqA := signupA_eq pepper secret nowA users p hs hf
  have hfe : (users ++ [signupDoc pepper nowA p none]).find?
      (emailOrUsernameQuery p.tenantId (lowerString p.email)
        (lowerString p.email)) = some (signupDoc pepper nowA p none) :=
    find_append_new users _ p.tenantId (lowerString p.email)
      (no_earlier_match_email users p hf hshadowU)
      (doc_matches_email pepper nowA p none)
  have hfu : (users ++ [signupDoc pepper nowA p none]).find?
      (emailOrUsernameQuery p.tenantId (lowerString p.username)
        (lowerString p.username)) = some (signupDoc pepper nowA p none) :=
    find_append_new users _ p.tenantId (lowerString p.username)
      (no_earlier_match_username users p hf hshadowE)
      (doc_matches_username pepper nowA p none)
  have hB := signupB_eq pepper nowB ttl vtok users everifs p hs hf
  have hfeB : (users ++ [signupDoc pepper nowB p (some false)]).find?
      (emailOrUsernameQuery p.tenantId (lowerString p.email)
        (lowerString p.email)) = some (signupDoc pepper nowB p (some false)) :=
    find_append_new users _ p.tenantId (lowerString p.email)
      (no_earlier_match_email users p hf hshadowU)
      (doc_matches_email pepper nowB p (some false))
  refine ⟨?_, ?_, ?_, by simp [verifyToken], rfl, hB.1, ?_⟩
  · rw [heqA]
  · rw [heqA]
    exact loginA_success pepper secret _ _ _ hl1 hfe rfl
  · rw [heqA]
    exact loginA_success pepper secret _ _ _ hl2 hfu rfl
  · rw [hB.2]
    exact loginB_notVerified pepper secret _ _ _ hl1 hfeB rfl rfl

/-- Witness for `c1_amended_signup_login` at a concrete payload over an
empty store. -/
theorem c1_amended_signup_login_witness :
    (signupA "pep" "sec" 0 [] c1payload).user
      = some (signupDoc "pep" 0 c1payload none) ∧
    loginA "pep" "sec" (signupA "pep" "sec" 0 [] c1payload).users
        ⟨"t1", "a@b.co", "password1"⟩
      = ⟨200, some (Token.signed "sec" (signupClaims c1payload)), none⟩ ∧
    loginA "pep" "sec" (signupA "pep" "sec" 0 [] c1payload).users
        ⟨"t1", "alice", "password1"⟩
      = ⟨200, some (Token.signed "sec" (signupClaims c1payload)), none⟩ ∧
    verifyToken "sec" (Token.signed "sec" (signupClaims c1payload))
      = some (signupClaims c1payload) ∧
    (signupClaims c1payload).userId = (signupDoc "pep" 0 c1payload none).userId ∧
    (signupB "pep" 0 100 "vtok" [] [] c1payload).status = 201 ∧
    loginB "pep" "sec" (signupB "pep" 0 100 "vtok" [] [] c1payload).users
        ⟨"t1", "a@b.co", "password1"⟩
      = ⟨403, none, some "EMAIL_NOT_VERIFIED"⟩ :=
  c1_amended_signup_login "pep" "sec" 0 0 100 "vtok" [] [] c1payload
    (by simp) (by simp) (by decide)

end CommunityApp
